import Mathlib

/- Verification development for the facturx-engine repository.

   The Python sources embedded here are:
   - app/models/invoice.py            (data model, derived totals)
   - app/main.py                      (validators and the dry-run engine)
   - app/services/xml_generator.py    (the document serializer)

   Modelling conventions:
   - Python `Decimal` is modelled by `Dec` (integer coefficient and
     exponent, value = coeff * 10 ^ exp).  This keeps the distinction
     between numerically equal decimals with different exponents
     (e.g. Decimal "20" vs Decimal "20.0"), which `str` exposes.
   - Decimal arithmetic on the invoice amounts is exact under the
     default context precision (28 significant digits); inputs that
     overflow that precision are out of model.  `Dec.add` and `Dec.mul`
     follow the General Decimal Arithmetic exponent rules; the exponent
     produced by `Dec.div100` is observationally irrelevant (the
     division result is only ever consumed through sums and through
     2/4-decimal quantization, all of which depend only on the value),
     so it is not normalized the way CPython normalizes exact quotients.
   - Python numeric comparisons between Decimal, int and float compare
     exact values; float literals stand for their exact binary64
     values, which are (dyadic) decimal numbers and hence `Dec`s.
   - Python string `<` and equality agree with Lean `String` (both
     compare Unicode code points).
   - `re` class `\d` is modelled as the ASCII digits; Python's
     acceptance of non-ASCII Unicode digits is out of model.  The `$`
     anchor also matching just before a final newline is modelled
     (`dollarEnd`). -/

/-- Model of Python `decimal.Decimal`: value is `coeff * 10 ^ exp`.
    (A negative zero, which Python can represent, is out of model.) -/
structure Dec where
  coeff : Int
  exp : Int
deriving DecidableEq, Repr

/-- Exact rational value of a `Dec`. -/
def Dec.val (d : Dec) : ℚ := (d.coeff : ℚ) * (10 : ℚ) ^ d.exp

/-- Exact Decimal multiplication (coefficients multiply, exponents add). -/
def Dec.mul (a b : Dec) : Dec := ⟨a.coeff * b.coeff, a.exp + b.exp⟩

/-- Exact Decimal addition: operands are aligned to the smaller
    exponent, which is the exponent of the exact sum. -/
def Dec.add (a b : Dec) : Dec :=
  let m := min a.exp b.exp
  ⟨a.coeff * 10 ^ (a.exp - m).toNat + b.coeff * 10 ^ (b.exp - m).toNat, m⟩

/-- Division by 100 as used in `vat_amount = line_total * vat_rate / 100`:
    exact, value `coeff * 10 ^ (exp - 2)`.  (CPython may strip trailing
    zeros from the coefficient of an exact quotient; the exponent of
    this intermediate value is never observable, see header comment.) -/
def Dec.div100 (d : Dec) : Dec := ⟨d.coeff, d.exp - 2⟩

/-- The two coefficients rescaled to a common exponent; comparing them
    compares the exact values. -/
def Dec.scaledPair (a b : Dec) : Int × Int :=
  let m := min a.exp b.exp
  (a.coeff * 10 ^ (a.exp - m).toNat, b.coeff * 10 ^ (b.exp - m).toNat)

/-- Exact numeric equality test (Python `==` between Decimal/int/float). -/
def Dec.deq (a b : Dec) : Bool := (Dec.scaledPair a b).1 = (Dec.scaledPair a b).2

/-- Exact numeric `≤` (Python `<=`). -/
def Dec.dle (a b : Dec) : Bool := (Dec.scaledPair a b).1 ≤ (Dec.scaledPair a b).2

/-- Exact numeric `<` (Python `<`). -/
def Dec.dlt (a b : Dec) : Bool := (Dec.scaledPair a b).1 < (Dec.scaledPair a b).2

/-- Python `str(Decimal)`: the General Decimal Arithmetic
    to-scientific-string conversion, as implemented by
    `Decimal.__str__` in CPython. -/
def pyDecStr (d : Dec) : String :=
  let sign := if d.coeff < 0 then "-" else ""
  let digits := Nat.repr d.coeff.natAbs
  let n : Int := (digits.length : Int)
  let leftdigits : Int := d.exp + n
  if d.exp ≤ 0 ∧ leftdigits > -6 then
    -- positional notation, the decimal dot goes `leftdigits` in
    if leftdigits ≤ 0 then
      sign ++ "0." ++ String.mk (List.replicate (-leftdigits).toNat '0') ++ digits
    else if leftdigits ≥ n then
      sign ++ digits
    else
      sign ++ String.mk (digits.data.take leftdigits.toNat) ++ "." ++
        String.mk (digits.data.drop leftdigits.toNat)
  else
    -- scientific notation, one digit before the dot
    let ep : Int := leftdigits - 1
    let mantissa :=
      if n = 1 then digits
      else String.mk (digits.data.take 1) ++ "." ++ String.mk (digits.data.drop 1)
    sign ++ mantissa ++ "E" ++
      (if 0 ≤ ep then "+" ++ Nat.repr ep.natAbs else "-" ++ Nat.repr ep.natAbs)

/-- Rounding of `num / den` (`0 < den`) to an integer, nearest with
    ties away from zero: integer form of `ROUND_HALF_UP`. -/
def halfUpDiv (num : Int) (den : Nat) : Int :=
  if 0 ≤ num then ((2 * num.natAbs + den) / (2 * den) : Nat)
  else -(((2 * num.natAbs + den) / (2 * den) : Nat) : Int)

/-- Decimal `quantize` to exponent `-n` with `ROUND_HALF_UP`
    (an exact rescale when the exponent grows). -/
def Dec.quantize (d : Dec) (n : Nat) : Dec :=
  if 0 ≤ d.exp + (n : Int) then ⟨d.coeff * 10 ^ (d.exp + (n : Int)).toNat, -(n : Int)⟩
  else ⟨halfUpDiv d.coeff (10 ^ (-(d.exp + (n : Int))).toNat), -(n : Int)⟩

/-- Embeds `_fmt` of app/services/xml_generator.py:
    `str(value.quantize(Decimal("0." + "0"*decimals), rounding=ROUND_HALF_UP))`.
    (The quantized coefficient exceeding the context precision of 28
    digits, which would raise InvalidOperation, is out of model.) -/
def fmtDec (d : Dec) (decimals : Nat) : String := pyDecStr (d.quantize decimals)

/-- Python `ROUND_HALF_UP` rounding of a rational to an integer: nearest,
    ties away from zero. -/
def halfUpZ (q : ℚ) : Int :=
  if 0 ≤ q then ⌊q + 1/2⌋ else -⌊-q + 1/2⌋

/-- Spec-side rendering (for the refinement statement of the formatting
    claim): the fixed `n`-decimal string for the integer `m` of
    hundredths/ten-thousandths, i.e. for the value `m / 10 ^ n`:
    minus sign, integer digits, a dot, then exactly `n` digits. -/
def specRender (m : Int) (n : Nat) : String :=
  let ds := Nat.repr m.natAbs
  let padded := List.replicate (n + 1 - ds.length) '0' ++ ds.data
  (if m < 0 then "-" else "") ++ String.mk (padded.take (padded.length - n)) ++
    "." ++ String.mk (padded.drop (padded.length - n))

/-- Spec-side formatting: "fixed `n`-decimal strings with half-up
    rounding" of the exact value `q`. -/
def specFixed (q : ℚ) (n : Nat) : String := specRender (halfUpZ (q * 10 ^ n)) n

/-! ## Data model (app/models/invoice.py) -/

structure Address where
  street : String
  city : String
  postal_code : String
  country : String
deriving DecidableEq, Repr

structure Party where
  name : String
  siret : String
  vat_number : String
  address : Address
  email : Option String
deriving DecidableEq, Repr

structure InvoiceLine where
  id : String
  description : String
  quantity : Dec
  unit : String
  unit_price : Dec
  vat_rate : Dec
deriving DecidableEq, Repr

/-- Model of `CreditNoteData`: identical to a regular invoice but referencing the
    cancelled invoice (no due date, payment terms or IBAN fields). -/
structure CreditNoteData where
  invoice_number : String
  issue_date : String
  currency : String
  seller : Party
  buyer : Party
  lines : List InvoiceLine
  original_invoice_number : String
deriving DecidableEq, Repr

/-- Model of `InvoiceData`.  (The pydantic constraint that `lines` is non-empty
    holds for every invoice reaching the engine; none of the claims
    depends on it, so it is not baked into the type.) -/
structure InvoiceData where
  invoice_number : String
  issue_date : String
  due_date : Option String
  currency : String
  seller : Party
  buyer : Party
  lines : List InvoiceLine
  payment_terms : Option String
  bank_iban : Option String
deriving DecidableEq, Repr

/-- Derived `line_total = quantity * unit_price`. -/
def InvoiceLine.line_total (l : InvoiceLine) : Dec := l.quantity.mul l.unit_price

/-- Derived `vat_amount = line_total * vat_rate / 100`. -/
def InvoiceLine.vat_amount (l : InvoiceLine) : Dec :=
  (l.line_total.mul l.vat_rate).div100

/-- Derived `total_ht = sum(line.line_total for line in self.lines)`
    (Python `sum` is a left fold starting from 0). -/
def InvoiceData.total_ht (i : InvoiceData) : Dec :=
  (i.lines.map InvoiceLine.line_total).foldl Dec.add ⟨0, 0⟩

/-- Derived `total_vat = sum(line.vat_amount for line in self.lines)`. -/
def InvoiceData.total_vat (i : InvoiceData) : Dec :=
  (i.lines.map InvoiceLine.vat_amount).foldl Dec.add ⟨0, 0⟩

/-- Derived `total_ttc = total_ht + total_vat`. -/
def InvoiceData.total_ttc (i : InvoiceData) : Dec := i.total_ht.add i.total_vat

/-- Python truthiness of an optional string field: `None` and the empty
    string are falsy. -/
def pyTruthy : Option String → Bool
  | none => false
  | some s => !(s == "")

/-! ## Validators (app/main.py) -/

def isAsciiDigit (c : Char) : Bool := '0' ≤ c && c ≤ '9'

def digitVal (c : Char) : Nat := c.toNat - '0'.toNat

/-- Python's `$` anchor: end of string, or just before one final
    newline. -/
def dollarEnd : List Char → Bool
  | [] => true
  | ['\n'] => true
  | _ => false

/-- Consume exactly `n` digits (the regex piece `\d{n}`). -/
def dropDigits : Nat → List Char → Option (List Char)
  | 0, cs => some cs
  | _ + 1, [] => none
  | n + 1, c :: cs => if isAsciiDigit c then dropDigits n cs else none

/-- Embeds `_valider_siret`: `re.match(r"^\d{14}$", siret)`. -/
def valider_siret (s : String) : Bool :=
  ((dropDigits 14 s.data).map dollarEnd).getD false

/-- Embeds `_valider_tva_fr`: `re.match(r"^FR\d{2}\d{9}$", tva)`. -/
def valider_tva_fr (s : String) : Bool :=
  match s.data with
  | 'F' :: 'R' :: rest => ((dropDigits 11 rest).map dollarEnd).getD false
  | _ => false

/-- Embeds `iban.replace(" ", "")`. -/
def stripSpaces (s : String) : String := String.mk (s.data.filter (fun c => c ≠ ' '))

/-- Embeds `_valider_iban_fr`: spaces removed, then `re.match(r"^FR\d{25}$", iban)`. -/
def valider_iban_fr (s : String) : Bool :=
  match (stripSpaces s).data with
  | 'F' :: 'R' :: rest => ((dropDigits 25 rest).map dollarEnd).getD false
  | _ => false

/-- Postal code check: `re.match(r"^\d{5}$", code)`. -/
def valider_postal (s : String) : Bool :=
  ((dropDigits 5 s.data).map dollarEnd).getD false

/-- The `%m` token of `strptime` (regex `1[0-2]|0[1-9]|[1-9]`, ordered
    alternation). -/
def monthTok : List Char → Option (Nat × List Char)
  | [] => none
  | c1 :: rest1 =>
    match rest1 with
    | c2 :: rest2 =>
      if c1 = '1' && ('0' ≤ c2 && c2 ≤ '2') then some (10 + digitVal c2, rest2)
      else if c1 = '0' && ('1' ≤ c2 && c2 ≤ '9') then some (digitVal c2, rest2)
      else if '1' ≤ c1 && c1 ≤ '9' then some (digitVal c1, rest1)
      else none
    | [] => if '1' ≤ c1 && c1 ≤ '9' then some (digitVal c1, []) else none

/-- The `%d` token of `strptime` (regex `3[01]|[12]\d|0[1-9]|[1-9]`). -/
def dayTok : List Char → Option (Nat × List Char)
  | [] => none
  | c1 :: rest1 =>
    match rest1 with
    | c2 :: rest2 =>
      if c1 = '3' && ('0' ≤ c2 && c2 ≤ '1') then some (30 + digitVal c2, rest2)
      else if ('1' ≤ c1 && c1 ≤ '2') && isAsciiDigit c2 then
        some (10 * digitVal c1 + digitVal c2, rest2)
      else if c1 = '0' && ('1' ≤ c2 && c2 ≤ '9') then some (digitVal c2, rest2)
      else if '1' ≤ c1 && c1 ≤ '9' then some (digitVal c1, rest1)
      else none
    | [] => if '1' ≤ c1 && c1 ≤ '9' then some (digitVal c1, []) else none

def leapYear (y : Nat) : Bool := (y % 4 = 0 && y % 100 ≠ 0) || y % 400 = 0

def daysInMonth (y m : Nat) : Nat :=
  if m = 2 then (if leapYear y then 29 else 28)
  else if m = 4 || m = 6 || m = 9 || m = 11 then 30 else 31

/-- The calendar date `datetime.strptime(date_str, "%Y-%m-%d")` parses
    to, if any.  CPython compiles the format to the regex
    `(\d\d\d\d)-(1[0-2]|0[1-9]|[1-9])-(3[01]|[12]\d|0[1-9]|[1-9])`
    (matched from the start, no trailing characters allowed), then
    builds the `datetime`, which additionally requires `1 <= year` and
    the day to exist in the month. -/
def ymdOf (s : String) : Option (Nat × Nat × Nat) :=
  match s.data with
  | y1 :: y2 :: y3 :: y4 :: '-' :: rest =>
    if isAsciiDigit y1 && isAsciiDigit y2 && isAsciiDigit y3 && isAsciiDigit y4 then
      let y := 1000 * digitVal y1 + 100 * digitVal y2 + 10 * digitVal y3 + digitVal y4
      match monthTok rest with
      | some (m, '-' :: rest2) =>
        match dayTok rest2 with
        | some (d, []) =>
          if 1 ≤ y && d ≤ daysInMonth y m then some (y, m, d) else none
        | _ => none
      | _ => none
    else none
  | _ => none

/-- Embeds `_valider_date`: `datetime.strptime(date_str, "%Y-%m-%d")`
    succeeds. -/
def valider_date (s : String) : Bool := (ymdOf s).isSome

/-- Chronological order on parsed `(year, month, day)` triples. -/
def ymdEarlier (a b : Nat × Nat × Nat) : Bool :=
  a.1 < b.1 || (a.1 = b.1 && (a.2.1 < b.2.1 || (a.2.1 = b.2.1 && a.2.2 < b.2.2)))

/-! ## Dry-run rule engine (app/main.py, `dry_run_invoice`) -/

/-- The constant `TAUX_TVA_VALIDES = [0, 2.1, 5.5, 8.5, 10, 20]` — a Python list of
    two ints and four binary floats.  Each entry stands for its exact
    value: 5.5 and 8.5 are exactly representable binary64 floats, but
    the float literal `2.1` denotes `4728779608739021 * 2^-51`
    (= `4728779608739021 * 5^51 * 10^-51`), which is **not** the
    decimal 2.1. -/
def TAUX_TVA_VALIDES : List Dec :=
  [⟨0, 0⟩, ⟨4728779608739021 * 5 ^ 51, -51⟩, ⟨55, -1⟩, ⟨85, -1⟩, ⟨10, 0⟩, ⟨20, 0⟩]

def UNITES_VALIDES : List String :=
  ["HUR", "EA", "DAY", "MTR", "KGM", "LTR", "MTK", "C62", "SET", "MON"]

def DEVISES_VALIDES : List String := ["EUR", "USD", "GBP", "CHF", "JPY"]

def PAYS_VALIDES : List String :=
  ["FR", "DE", "ES", "IT", "BE", "NL", "PT", "LU", "AT", "GB", "CH", "US"]

/-- Python `in` on a numeric list: membership by exact numeric
    equality. -/
def decMem (d : Dec) (l : List Dec) : Bool := l.any (fun x => Dec.deq d x)

/-- Python string `<`: lexicographic comparison of code points. -/
def strLtChars : List Char → List Char → Bool
  | [], [] => false
  | [], _ :: _ => true
  | _ :: _, [] => false
  | a :: as, b :: bs =>
    if a.toNat < b.toNat then true
    else if a.toNat = b.toNat then strLtChars as bs
    else false

def pyStrLt (a b : String) : Bool := strLtChars a.data b.data

def msgIbanInvalide : String := "IBAN invalide : format attendu FR + 25 caractères"
def msgIbanManquant : String := "IBAN manquant - recommandé pour paiement virement"
def msgDateEmission : String := "Date émission invalide : format attendu YYYY-MM-DD"
def msgDueInvalide : String := "Date échéance invalide : format attendu YYYY-MM-DD"
def msgDueAnterieure : String := "Date échéance antérieure à la date émission"
def msgDueManquante : String := "Date échéance manquante - recommandée EN16931"

def siret_errors (i : InvoiceData) : List String :=
  (if valider_siret i.seller.siret then []
   else ["SIRET vendeur invalide : doit contenir exactement 14 chiffres"]) ++
  (if valider_siret i.buyer.siret then []
   else ["SIRET acheteur invalide : doit contenir exactement 14 chiffres"])

def tva_errors (i : InvoiceData) : List String :=
  (if valider_tva_fr i.seller.vat_number then []
   else ["Numéro TVA vendeur invalide : format attendu FR + 11 chiffres"]) ++
  (if valider_tva_fr i.buyer.vat_number then []
   else ["Numéro TVA acheteur invalide : format attendu FR + 11 chiffres"])

def iban_errors (i : InvoiceData) : List String :=
  if pyTruthy i.bank_iban then
    (if valider_iban_fr (i.bank_iban.getD "") then [] else [msgIbanInvalide])
  else []

def iban_warnings (i : InvoiceData) : List String :=
  if pyTruthy i.bank_iban then [] else [msgIbanManquant]

def date_errors (i : InvoiceData) : List String :=
  (if valider_date i.issue_date then [] else [msgDateEmission]) ++
  (if pyTruthy i.due_date then
     (if !valider_date (i.due_date.getD "") then [msgDueInvalide]
      else if pyStrLt (i.due_date.getD "") i.issue_date then [msgDueAnterieure]
      else [])
   else [])

def due_warnings (i : InvoiceData) : List String :=
  if pyTruthy i.due_date then [] else [msgDueManquante]

def payment_warnings (i : InvoiceData) : List String :=
  if pyTruthy i.payment_terms then []
  else ["Conditions de paiement manquantes - recommandées"]

def devise_errors (i : InvoiceData) : List String :=
  if DEVISES_VALIDES.contains i.currency then []
  else ["Devise invalide : " ++ i.currency ++
        ". Valeurs acceptées : ['EUR', 'USD', 'GBP', 'CHF', 'JPY']"]

def pays_warnings (i : InvoiceData) : List String :=
  (if PAYS_VALIDES.contains i.seller.address.country then []
   else ["Code pays vendeur inhabituel : " ++ i.seller.address.country]) ++
  (if PAYS_VALIDES.contains i.buyer.address.country then []
   else ["Code pays acheteur inhabituel : " ++ i.buyer.address.country])

def postal_errors (i : InvoiceData) : List String :=
  (if i.seller.address.country == "FR" && !valider_postal i.seller.address.postal_code
   then ["Code postal vendeur invalide : doit contenir 5 chiffres"] else []) ++
  (if i.buyer.address.country == "FR" && !valider_postal i.buyer.address.postal_code
   then ["Code postal acheteur invalide : doit contenir 5 chiffres"] else [])

def line_errors (i : InvoiceData) : List String :=
  i.lines.flatMap (fun l =>
    (if l.quantity.dle ⟨0, 0⟩ then ["Ligne " ++ l.id ++ " : quantité doit être > 0"]
     else []) ++
    (if l.unit_price.dlt ⟨0, 0⟩ then
       ["Ligne " ++ l.id ++ " : prix unitaire ne peut pas être négatif"]
     else []))

def line_warnings (i : InvoiceData) : List String :=
  i.lines.flatMap (fun l =>
    (if decMem l.vat_rate TAUX_TVA_VALIDES then []
     else ["Ligne " ++ l.id ++ " : taux TVA " ++ pyDecStr l.vat_rate ++
           "% inhabituel en France"]) ++
    (if UNITES_VALIDES.contains l.unit then []
     else ["Ligne " ++ l.id ++ " : unité " ++ l.unit ++ " non standard UN/ECE"]))

/-- The `errors` list of `dry_run_invoice`, in evaluation order. -/
def dry_run_errors (i : InvoiceData) : List String :=
  siret_errors i ++ tva_errors i ++ iban_errors i ++ date_errors i ++
    devise_errors i ++ postal_errors i ++ line_errors i

/-- The `warnings` list of `dry_run_invoice`, in evaluation order. -/
def dry_run_warnings (i : InvoiceData) : List String :=
  iban_warnings i ++ due_warnings i ++ payment_warnings i ++ pays_warnings i ++
    line_warnings i

/-- The response of `POST /v1/invoice/dry-run`.  (The JSON response
    serializes the totals through `str`, and also carries
    `invoice_number`, `duration_ms` and an `xml_preview` of the
    generated XML, none of which the claims depend on.) -/
structure DryRunResult where
  valid : Bool
  invoice_number : String
  total_ht : Dec
  total_vat : Dec
  total_ttc : Dec
  errors : List String
  warnings : List String
deriving DecidableEq, Repr

/-- Embeds `dry_run_invoice`: collects every rule violation, then returns
    `valid = (len(errors) == 0)` together with the computed totals,
    errors and warnings. -/
def dry_run_invoice (i : InvoiceData) : DryRunResult :=
  { valid := dry_run_errors i == []
  , invoice_number := i.invoice_number
  , total_ht := i.total_ht
  , total_vat := i.total_vat
  , total_ttc := i.total_ttc
  , errors := dry_run_errors i
  , warnings := dry_run_warnings i }

/-! ## Document serializer (app/services/xml_generator.py)

    lxml element trees are modelled by `Xml`: a namespace URI, a local
    tag, attributes in insertion order, optional text, children in
    insertion order.  `etree.tostring(root, xml_declaration=True,
    encoding="UTF-8", pretty_print=True)` is a pure function of this
    tree, so tree-level facts transfer to the emitted bytes. -/

inductive Xml where
  | el (ns : String) (tag : String) (attrs : List (String × String))
      (text : Option String) (children : List Xml)

def Xml.ns : Xml → String
  | .el n _ _ _ _ => n

def Xml.tag : Xml → String
  | .el _ t _ _ _ => t

def Xml.attrs : Xml → List (String × String)
  | .el _ _ a _ _ => a

def Xml.text : Xml → Option String
  | .el _ _ _ t _ => t

def Xml.children : Xml → List Xml
  | .el _ _ _ _ c => c

/-- The `NAMESPACES` dict. -/
def NAMESPACES (k : String) : String :=
  if k == "rsm" then "urn:un:unece:uncefact:data:standard:CrossIndustryInvoice:100"
  else if k == "ram" then
    "urn:un:unece:uncefact:data:standard:ReusableAggregateBusinessInformationEntity:100"
  else if k == "udt" then "urn:un:unece:uncefact:data:standard:UnqualifiedDataType:100"
  else "http://www.w3.org/2001/XMLSchema-instance"

/-- The `_e` helper: a subelement with qualified tag, optional text and
    attributes (the parent argument becomes tree structure here). -/
def subEl (ns tag : String) (attrs : List (String × String)) (text : Option String)
    (children : List Xml) : Xml :=
  .el (NAMESPACES ns) tag attrs text children

/-- Embeds `_add_date`: a container holding a `udt:DateTimeString` with
    attribute `format="102"` and the hyphen-stripped date as text. -/
def stripDashes (s : String) : String := String.mk (s.data.filter (fun c => c ≠ '-'))

def add_date (tag date_str : String) : Xml :=
  subEl "ram" tag [] none
    [subEl "udt" "DateTimeString" [("format", "102")] (some (stripDashes date_str)) []]

/-- Embeds `_build_party`. -/
def build_party (tag : String) (party : Party) : Xml :=
  subEl "ram" tag [] none
    [ subEl "ram" "Name" [] (some party.name) []
    , subEl "ram" "SpecifiedLegalOrganization" [] none
        [subEl "ram" "ID" [("schemeID", "0002")] (some party.siret) []]
    , subEl "ram" "PostalTradeAddress" [] none
        [ subEl "ram" "PostcodeCode" [] (some party.address.postal_code) []
        , subEl "ram" "LineOne" [] (some party.address.street) []
        , subEl "ram" "CityName" [] (some party.address.city) []
        , subEl "ram" "CountryID" [] (some party.address.country) [] ]
    , subEl "ram" "SpecifiedTaxRegistration" [] none
        [subEl "ram" "ID" [("schemeID", "VA")] (some party.vat_number) []] ]

/-- Embeds `_build_line`. -/
def build_line (line : InvoiceLine) (currency : String) : Xml :=
  subEl "ram" "IncludedSupplyChainTradeLineItem" [] none
    [ subEl "ram" "AssociatedDocumentLineDocument" [] none
        [subEl "ram" "LineID" [] (some line.id) []]
    , subEl "ram" "SpecifiedTradeProduct" [] none
        [subEl "ram" "Name" [] (some line.description) []]
    , subEl "ram" "SpecifiedLineTradeAgreement" [] none
        [ subEl "ram" "GrossPriceProductTradePrice" [] none
            [subEl "ram" "ChargeAmount" [("currencyID", currency)]
              (some (fmtDec line.unit_price 2)) []]
        , subEl "ram" "NetPriceProductTradePrice" [] none
            [subEl "ram" "ChargeAmount" [("currencyID", currency)]
              (some (fmtDec line.unit_price 2)) []] ]
    , subEl "ram" "SpecifiedLineTradeDelivery" [] none
        [subEl "ram" "BilledQuantity" [("unitCode", line.unit)]
          (some (fmtDec line.quantity 4)) []]
    , subEl "ram" "SpecifiedLineTradeSettlement" [] none
        [ subEl "ram" "ApplicableTradeTax" [] none
            [ subEl "ram" "TypeCode" [] (some "VAT") []
            , subEl "ram" "CategoryCode" [] (some "S") []
            , subEl "ram" "RateApplicablePercent" [] (some (fmtDec line.vat_rate 2)) [] ]
        , subEl "ram" "SpecifiedTradeSettlementLineMonetarySummation" [] none
            [subEl "ram" "LineTotalAmount" [("currencyID", currency)]
              (some (fmtDec line.line_total 2)) []] ] ]

/-- One accumulator entry of `_build_vat_breakdown`'s `vat_groups`
    dict: the key is `str(line.vat_rate)`; `rateDec` is the (identical)
    `vat_rate` of the lines that produced the key, recorded so that the
    final `_fmt(Decimal(rate))` can be expressed (parsing `str(d)` back
    yields `d` itself). -/
structure VatGroup where
  rateKey : String
  rateDec : Dec
  base : Dec
  vat : Dec
deriving DecidableEq, Repr

/-- One `vat_groups[key]["base"] += line.line_total;
    vat_groups[key]["vat"] += line.vat_amount` step.  A missing key is
    appended at the end (Python dicts preserve insertion order). -/
def addLineToGroups : List VatGroup → InvoiceLine → List VatGroup
  | [], l =>
    [⟨pyDecStr l.vat_rate, l.vat_rate,
      Dec.add ⟨0, 0⟩ l.line_total, Dec.add ⟨0, 0⟩ l.vat_amount⟩]
  | g :: gs, l =>
    if g.rateKey == pyDecStr l.vat_rate then
      { g with base := g.base.add l.line_total, vat := g.vat.add l.vat_amount } :: gs
    else g :: addLineToGroups gs l

/-- The fully accumulated `vat_groups` dict, in insertion order. -/
def vat_groups (lines : List InvoiceLine) : List VatGroup :=
  lines.foldl addLineToGroups []

/-- Embeds `_build_vat_breakdown`: one `ram:ApplicableTradeTax` block per
    distinct `str(vat_rate)` key, in first-seen order. -/
def build_vat_breakdown (i : InvoiceData) : List Xml :=
  (vat_groups i.lines).map (fun g =>
    subEl "ram" "ApplicableTradeTax" [] none
      [ subEl "ram" "CalculatedAmount" [("currencyID", i.currency)]
          (some (fmtDec g.vat 2)) []
      , subEl "ram" "TypeCode" [] (some "VAT") []
      , subEl "ram" "BasisAmount" [("currencyID", i.currency)]
          (some (fmtDec g.base 2)) []
      , subEl "ram" "CategoryCode" [] (some "S") []
      , subEl "ram" "RateApplicablePercent" [] (some (fmtDec g.rateDec 2)) [] ])

/-- Embeds `_build_totals`. -/
def build_totals (i : InvoiceData) : Xml :=
  subEl "ram" "SpecifiedTradeSettlementHeaderMonetarySummation" [] none
    [ subEl "ram" "LineTotalAmount" [("currencyID", i.currency)]
        (some (fmtDec i.total_ht 2)) []
    , subEl "ram" "TaxBasisTotalAmount" [("currencyID", i.currency)]
        (some (fmtDec i.total_ht 2)) []
    , subEl "ram" "TaxTotalAmount" [("currencyID", i.currency)]
        (some (fmtDec i.total_vat 2)) []
    , subEl "ram" "GrandTotalAmount" [("currencyID", i.currency)]
        (some (fmtDec i.total_ttc 2)) []
    , subEl "ram" "DuePayableAmount" [("currencyID", i.currency)]
        (some (fmtDec i.total_ttc 2)) [] ]

/-- The `ram:ApplicableHeaderTradeSettlement` block of `generate_xml`:
    currency code, then — only when `invoice.bank_iban` is truthy — the
    payment-means block, then the VAT breakdown, then the totals. -/
def build_settlement (i : InvoiceData) : Xml :=
  subEl "ram" "ApplicableHeaderTradeSettlement" [] none
    ([subEl "ram" "InvoiceCurrencyCode" [] (some i.currency) []] ++
     (if pyTruthy i.bank_iban then
        [subEl "ram" "SpecifiedTradeSettlementPaymentMeans" [] none
          [ subEl "ram" "TypeCode" [] (some "30") []
          , subEl "ram" "PayeePartyCreditorFinancialAccount" [] none
              [subEl "ram" "IBANID" [] (some (i.bank_iban.getD "")) []] ]]
      else []) ++
     build_vat_breakdown i ++ [build_totals i])

/-- Embeds `generate_xml`: the full CrossIndustryInvoice tree.  `TypeCode` is
    the literal `"380"`. -/
def generate_xml (invoice : InvoiceData) : Xml :=
  .el (NAMESPACES "rsm") "CrossIndustryInvoice" [] none
    [ subEl "rsm" "ExchangedDocumentContext" [] none
        [subEl "ram" "GuidelineSpecifiedDocumentContextParameter" [] none
          [subEl "ram" "ID" []
            (some "urn:cen.eu:en16931:2017#conformant#urn:factur-x.eu:1p0:extended") []]]
    , subEl "rsm" "ExchangedDocument" [] none
        [ subEl "ram" "ID" [] (some invoice.invoice_number) []
        , subEl "ram" "TypeCode" [] (some "380") []
        , add_date "IssueDateTime" invoice.issue_date ]
    , subEl "rsm" "SupplyChainTradeTransaction" [] none
        (invoice.lines.map (fun l => build_line l invoice.currency) ++
         [ subEl "ram" "ApplicableHeaderTradeAgreement" [] none
             [build_party "SellerTradeParty" invoice.seller,
              build_party "BuyerTradeParty" invoice.buyer]
         , subEl "ram" "ApplicableHeaderTradeDelivery" [] none []
         , build_settlement invoice ]) ]

/-- A credit note viewed through the invoice serializer's helpers:
    the shared part of the tree (no due date, payment terms or IBAN
    exist on a credit note). -/
def CreditNoteData.asInvoice (cn : CreditNoteData) : InvoiceData :=
  { invoice_number := cn.invoice_number
  , issue_date := cn.issue_date
  , due_date := none
  , currency := cn.currency
  , seller := cn.seller
  , buyer := cn.buyer
  , lines := cn.lines
  , payment_terms := none
  , bank_iban := none }

/-- Modelled from the spec: `generate_credit_note_xml` is imported by
    app/main.py from app.services.xml_generator but is absent from the
    provided source tree.  Per the spec, a credit note is "identical
    shape to Invoice" and "serializes with a distinct document-type
    code", with `document_type ∈ {Invoice(380), CreditNote(381)}`: the
    same tree as `generate_xml` with header `TypeCode` 381. -/
def generate_credit_note_xml (cn : CreditNoteData) : Xml :=
  .el (NAMESPACES "rsm") "CrossIndustryInvoice" [] none
    [ subEl "rsm" "ExchangedDocumentContext" [] none
        [subEl "ram" "GuidelineSpecifiedDocumentContextParameter" [] none
          [subEl "ram" "ID" []
            (some "urn:cen.eu:en16931:2017#conformant#urn:factur-x.eu:1p0:extended") []]]
    , subEl "rsm" "ExchangedDocument" [] none
        [ subEl "ram" "ID" [] (some cn.invoice_number) []
        , subEl "ram" "TypeCode" [] (some "381") []
        , add_date "IssueDateTime" cn.issue_date ]
    , subEl "rsm" "SupplyChainTradeTransaction" [] none
        (cn.lines.map (fun l => build_line l cn.currency) ++
         [ subEl "ram" "ApplicableHeaderTradeAgreement" [] none
             [build_party "SellerTradeParty" cn.seller,
              build_party "BuyerTradeParty" cn.buyer]
         , subEl "ram" "ApplicableHeaderTradeDelivery" [] none []
         , build_settlement cn.asInvoice ]) ]

/-- The `(tag, text)` of the header document-type element: second child
    (`rsm:ExchangedDocument`) of the root, second child of that. -/
def docTypeCodeElem (x : Xml) : Option (String × Option String) :=
  match x with
  | .el _ _ _ _ (_ :: .el _ _ _ _ (_ :: tc :: _) :: _) => some (tc.tag, tc.text)
  | _ => none

/-- The header settlement block: third child of the root is the
    transaction; its last child is the settlement. -/
def settlementOf (x : Xml) : Option Xml :=
  match x with
  | .el _ _ _ _ (_ :: _ :: tx :: _) => tx.children.getLast?
  | _ => none

/-- Number of `ram:ApplicableTradeTax` blocks in the header settlement
    (the VAT breakdown; per-line tax blocks live elsewhere). -/
def vatBlockCount (x : Xml) : Nat :=
  match settlementOf x with
  | some s => (s.children.filter (fun c => c.tag == "ApplicableTradeTax")).length
  | none => 0

/-- Whether the header settlement contains a payment-means block. -/
def hasPaymentMeans (x : Xml) : Bool :=
  match settlementOf x with
  | some s => s.children.any (fun c => c.tag == "SpecifiedTradeSettlementPaymentMeans")
  | none => false

/-! ## Concrete fixtures (modelled on src/tests/test_api.py's
    INVOICE_JSON, which the dry-run endpoint accepts with no errors and
    no warnings) -/

def sellerOk : Party :=
  { name := "ACME SAS", siret := "12345678900017", vat_number := "FR12345678900"
  , address := { street := "12 rue de la Paix", city := "Paris"
               , postal_code := "75001", country := "FR" }
  , email := none }

def buyerOk : Party :=
  { name := "CLIENT SARL", siret := "98765432100012", vat_number := "FR98765432100"
  , address := { street := "5 avenue Victor Hugo", city := "Lyon"
               , postal_code := "69001", country := "FR" }
  , email := none }

def lineOk : InvoiceLine :=
  { id := "1", description := "Test", quantity := ⟨1, 0⟩, unit := "EA"
  , unit_price := ⟨100, 0⟩, vat_rate := ⟨20, 0⟩ }

def invoiceOk : InvoiceData :=
  { invoice_number := "TEST-001", issue_date := "2024-06-01"
  , due_date := some "2024-07-01", currency := "EUR"
  , seller := sellerOk, buyer := buyerOk, lines := [lineOk]
  , payment_terms := some "Virement 30 jours"
  , bank_iban := some "FR7630006000011234567890189" }

/-- Two lines whose VAT rates are the same number with different
    Decimal exponents: Decimal "20" and Decimal "20.0". -/
def invoiceTwoTwenties : InvoiceData :=
  { invoiceOk with lines :=
      [ lineOk
      , { id := "2", description := "Test2", quantity := ⟨2, 0⟩, unit := "EA"
        , unit_price := ⟨50, 0⟩, vat_rate := ⟨200, -1⟩ } ] }

/-- One line at the domestic super-reduced rate, Decimal "2.1". -/
def invoiceRate21 : InvoiceData :=
  { invoiceOk with lines :=
      [{ lineOk with vat_rate := ⟨21, -1⟩ }] }

/-- IBAN that is "FR" followed by 25 characters, but not 25 digits. -/
def invoiceIbanLetters : InvoiceData :=
  { invoiceOk with bank_iban := some "FRAAAAAAAAAAAAAAAAAAAAAAAAA" }

/-- Due date earlier than the issue date in calendar terms, with a
    non-zero-padded month that `strptime` accepts. -/
def invoiceDueEarlier : InvoiceData :=
  { invoiceOk with issue_date := "2024-10-01", due_date := some "2024-6-02" }

def invoiceNoIban : InvoiceData := { invoiceOk with bank_iban := none }

def invoiceEmptyIban : InvoiceData := { invoiceOk with bank_iban := some "" }

def invoiceNoDue : InvoiceData := { invoiceOk with due_date := none }

def invoiceBadDue : InvoiceData := { invoiceOk with due_date := some "01/07/2024" }

-- sanity checks of the embedding against observed CPython behavior
example : dry_run_errors invoiceOk = [] := by decide
example : dry_run_warnings invoiceOk = [] := by decide
example : (dry_run_invoice invoiceOk).valid = true := by decide
example : vatBlockCount (generate_xml invoiceOk) = 1 := by decide
example : vatBlockCount (generate_xml invoiceTwoTwenties) = 2 := by decide
example : hasPaymentMeans (generate_xml invoiceOk) = true := by decide
example : hasPaymentMeans (generate_xml invoiceEmptyIban) = false := by decide
example : dry_run_warnings invoiceRate21 =
    ["Ligne 1 : taux TVA 2.1% inhabituel en France"] := by decide
example : dry_run_errors invoiceIbanLetters = [msgIbanInvalide] := by decide
example : dry_run_errors invoiceDueEarlier = [] := by decide
example : dry_run_errors invoiceBadDue = [msgDueInvalide] := by decide
example : dry_run_errors invoiceNoDue = [] ∧
    dry_run_warnings invoiceNoDue = [msgDueManquante] := by decide
example : docTypeCodeElem (generate_xml invoiceOk) = some ("TypeCode", some "380") := by
  decide
example : valider_date "2024-06-01" = true := by decide
example : ymdOf "2024-6-02" = some (2024, 6, 2) := by decide
example : ymdOf "2024-10-01" = some (2024, 10, 1) := by decide
example : ymdEarlier (2024, 6, 2) (2024, 10, 1) = true := by decide

/-! ## Helper lemmas: values of Decimal arithmetic -/

theorem ten_zpow_sub_mul {e m : Int} (h : m ≤ e) :
    (10 : ℚ) ^ (e - m).toNat * (10 : ℚ) ^ m = (10 : ℚ) ^ e := by
  rw [← zpow_natCast (10 : ℚ) (e - m).toNat, Int.toNat_of_nonneg (sub_nonneg.2 h),
    ← zpow_add₀ (by norm_num : (10 : ℚ) ≠ 0), sub_add_cancel]

theorem Dec.val_add (a b : Dec) : (a.add b).val = a.val + b.val := by
  unfold Dec.add Dec.val
  push_cast
  rcases le_total a.exp b.exp with h | h
  · rw [min_eq_left h, add_mul]
    rw [mul_assoc, mul_assoc, ten_zpow_sub_mul le_rfl, ten_zpow_sub_mul h]
  · rw [min_eq_right h, add_mul]
    rw [mul_assoc, mul_assoc, ten_zpow_sub_mul h, ten_zpow_sub_mul le_rfl]

theorem Dec.val_mul (a b : Dec) : (a.mul b).val = a.val * b.val := by
  unfold Dec.mul Dec.val
  push_cast
  rw [zpow_add₀ (by norm_num : (10 : ℚ) ≠ 0)]
  ring

theorem Dec.val_div100 (d : Dec) : d.div100.val = d.val / 100 := by
  unfold Dec.div100 Dec.val
  rw [zpow_sub₀ (by norm_num : (10 : ℚ) ≠ 0)]
  norm_num
  ring

theorem Dec.val_zero : (⟨0, 0⟩ : Dec).val = 0 := by
  unfold Dec.val
  norm_num

theorem foldl_add_val (l : List Dec) (init : Dec) :
    (l.foldl Dec.add init).val = init.val + (l.map Dec.val).sum := by
  induction l generalizing init with
  | nil => simp
  | cons x xs ih =>
    rw [List.foldl_cons, ih, Dec.val_add, List.map_cons, List.sum_cons]
    ring

theorem total_ht_val (i : InvoiceData) :
    i.total_ht.val = (i.lines.map (fun l => l.line_total.val)).sum := by
  unfold InvoiceData.total_ht
  rw [foldl_add_val, Dec.val_zero, List.map_map]
  rw [zero_add]
  rfl

theorem total_vat_val (i : InvoiceData) :
    i.total_vat.val = (i.lines.map (fun l => l.vat_amount.val)).sum := by
  unfold InvoiceData.total_vat
  rw [foldl_add_val, Dec.val_zero, List.map_map]
  rw [zero_add]
  rfl

/-! ## Helper lemmas: the VAT grouping -/

theorem addLineToGroups_keys (gs : List VatGroup) (l : InvoiceLine) :
    (addLineToGroups gs l).map VatGroup.rateKey =
      (if pyDecStr l.vat_rate ∈ gs.map VatGroup.rateKey then gs.map VatGroup.rateKey
       else gs.map VatGroup.rateKey ++ [pyDecStr l.vat_rate]) := by
  induction gs with
  | nil => simp [addLineToGroups]
  | cons g gs ih =>
    by_cases h : g.rateKey = pyDecStr l.vat_rate
    · simp [addLineToGroups, h]
    · simp only [addLineToGroups, beq_iff_eq, h, if_false, List.map_cons, ih,
        List.mem_cons]
      by_cases hm : pyDecStr l.vat_rate ∈ gs.map VatGroup.rateKey
      · simp [hm, Ne.symm h]
      · simp [hm, Ne.symm h]

theorem foldl_groups_keys (lines : List InvoiceLine) (acc : List VatGroup) :
    (lines.foldl addLineToGroups acc).map VatGroup.rateKey =
      lines.foldl
        (fun ks l => if pyDecStr l.vat_rate ∈ ks then ks else ks ++ [pyDecStr l.vat_rate])
        (acc.map VatGroup.rateKey) := by
  induction lines generalizing acc with
  | nil => rfl
  | cons x xs ih => rw [List.foldl_cons, List.foldl_cons, ih, addLineToGroups_keys]

theorem addLineToGroups_base_sum (gs : List VatGroup) (l : InvoiceLine) :
    ((addLineToGroups gs l).map (fun g => g.base.val)).sum =
      (gs.map (fun g => g.base.val)).sum + l.line_total.val := by
  induction gs with
  | nil => simp [addLineToGroups, Dec.val_add, Dec.val_zero]
  | cons g gs ih =>
    by_cases h : g.rateKey = pyDecStr l.vat_rate
    · simp [addLineToGroups, h, Dec.val_add]
      ring
    · simp [addLineToGroups, h, ih]
      ring

theorem addLineToGroups_vat_sum (gs : List VatGroup) (l : InvoiceLine) :
    ((addLineToGroups gs l).map (fun g => g.vat.val)).sum =
      (gs.map (fun g => g.vat.val)).sum + l.vat_amount.val := by
  induction gs with
  | nil => simp [addLineToGroups, Dec.val_add, Dec.val_zero]
  | cons g gs ih =>
    by_cases h : g.rateKey = pyDecStr l.vat_rate
    · simp [addLineToGroups, h, Dec.val_add]
      ring
    · simp [addLineToGroups, h, ih]
      ring

theorem foldl_groups_base_sum (lines : List InvoiceLine) (acc : List VatGroup) :
    ((lines.foldl addLineToGroups acc).map (fun g => g.base.val)).sum =
      (acc.map (fun g => g.base.val)).sum + (lines.map (fun l => l.line_total.val)).sum := by
  induction lines generalizing acc with
  | nil => simp
  | cons x xs ih =>
    rw [List.foldl_cons, ih, addLineToGroups_base_sum, List.map_cons, List.sum_cons]
    ring

/-! ## Helper lemmas: quantize and rendering (formatting claim) -/

theorem halfUpZ_intCast (z : Int) : halfUpZ (z : ℚ) = z := by
  unfold halfUpZ
  have h12 : ⌊(1 : ℚ)/2⌋ = 0 := by norm_num
  rcases le_or_lt 0 z with h | h
  · rw [if_pos (by exact_mod_cast h), Int.floor_int_add, h12, add_zero]
  · rw [if_neg (not_le.2 (by exact_mod_cast h)),
      show -(z : ℚ) = ((-z : ℤ) : ℚ) by push_cast; ring,
      Int.floor_int_add, h12, add_zero, neg_neg]

theorem halfUpDiv_eq (a : Int) (b : Nat) (hb : 0 < b) :
    halfUpDiv a b = halfUpZ ((a : ℚ) / (b : ℚ)) := by
  have hbQ : (0 : ℚ) < (b : ℚ) := by exact_mod_cast hb
  unfold halfUpDiv halfUpZ
  rcases le_or_lt 0 a with ha | ha
  · have hna : ((a.natAbs : ℕ) : ℤ) = a := by omega
    have hnaQ : ((a.natAbs : ℕ) : ℚ) = (a : ℚ) := by
      rw [← Int.cast_natCast a.natAbs, hna]
    have key : (a : ℚ)/(b : ℚ) + 1/2 = ((2 * a.natAbs + b : ℕ) : ℚ) / ((2 * b : ℕ) : ℚ) := by
      push_cast
      rw [hnaQ]
      field_simp
      ring
    rw [if_pos ha, if_pos (by positivity), key, Rat.floor_natCast_div_natCast]
    exact Int.ofNat_div _ _
  · have hna : ((a.natAbs : ℕ) : ℤ) = -a := by omega
    have hnaQ : ((a.natAbs : ℕ) : ℚ) = -(a : ℚ) := by
      rw [← Int.cast_natCast a.natAbs, hna]
      push_cast
      ring
    have hneg : (a : ℚ)/(b : ℚ) < 0 :=
      div_neg_of_neg_of_pos (by exact_mod_cast ha) hbQ
    have key : -((a : ℚ)/(b : ℚ)) + 1/2 =
        ((2 * a.natAbs + b : ℕ) : ℚ) / ((2 * b : ℕ) : ℚ) := by
      push_cast
      rw [hnaQ]
      field_simp
      ring
    rw [if_neg (not_le.2 ha), if_neg (not_le.2 hneg), key, Rat.floor_natCast_div_natCast]
    exact congrArg Neg.neg (Int.ofNat_div _ _)

theorem val_mul_pow (d : Dec) (n : Nat) :
    d.val * 10 ^ n = (d.coeff : ℚ) * (10 : ℚ) ^ (d.exp + (n : Int)) := by
  unfold Dec.val
  rw [zpow_add₀ (by norm_num : (10 : ℚ) ≠ 0), ← zpow_natCast (10 : ℚ) n]
  ring

theorem quantize_eq_halfUp (d : Dec) (n : Nat) :
    d.quantize n = ⟨halfUpZ (d.val * 10 ^ n), -(n : Int)⟩ := by
  unfold Dec.quantize
  split
  next h =>
    have hv : d.val * 10 ^ n = ((d.coeff * 10 ^ (d.exp + (n : Int)).toNat : ℤ) : ℚ) := by
      rw [val_mul_pow]
      push_cast
      rw [← zpow_natCast (10 : ℚ) (d.exp + (n : Int)).toNat, Int.toNat_of_nonneg h]
    rw [hv, halfUpZ_intCast]
  next h =>
    set k : ℕ := (-(d.exp + (n : Int))).toNat with hkdef
    have h2 : d.exp + (n : Int) = -(k : Int) := by omega
    have hb : (0 : ℕ) < 10 ^ k := by positivity
    have hv : d.val * 10 ^ n = (d.coeff : ℚ) / ((10 ^ k : ℕ) : ℚ) := by
      rw [val_mul_pow, h2, zpow_neg, zpow_natCast (10 : ℚ) k]
      push_cast
      rw [div_eq_mul_inv]
    congr 1
    rw [halfUpDiv_eq _ _ hb, hv]

theorem pyDecStr_quantized (m : Int) (n : Nat) (h0 : 0 < n) (h6 : n < 6) :
    pyDecStr ⟨m, -(n : Int)⟩ = specRender m n := by
  unfold pyDecStr specRender
  simp only
  have hL : ((Nat.repr m.natAbs).length : Int) = ((Nat.repr m.natAbs).data.length : Int) := rfl
  set L := (Nat.repr m.natAbs).length with hLdef
  rw [if_pos ⟨by omega, by omega⟩]
  rcases le_or_lt L n with hLn | hLn
  · rw [if_pos (by omega : -(n : Int) + (L : Int) ≤ 0)]
    have e1 : (-(-(n : Int) + (L : Int))).toNat = n - L := by omega
    have e2 : n + 1 - L + L = n + 1 := by omega
    have e3 : 1 ≤ n + 1 - L := by omega
    apply String.ext
    simp only [String.data_append, e1]
    rw [List.length_append, List.length_replicate]
    have hdl : (Nat.repr m.natAbs).data.length = L := rfl
    rw [hdl, e2]
    have e4 : n + 1 - n = 1 := by omega
    rw [e4]
    rw [List.take_append_of_le_length (by rw [List.length_replicate]; exact e3),
      List.take_replicate, Nat.min_eq_left e3]
    rw [List.drop_append_of_le_length (by rw [List.length_replicate]; exact e3),
      List.drop_replicate]
    have e5 : n + 1 - L - 1 = n - L := by omega
    rw [e5]
    simp [List.append_assoc]
  · rw [if_neg (by omega : ¬ -(n : Int) + (L : Int) ≤ 0),
      if_neg (by omega : ¬ -(n : Int) + (L : Int) ≥ (L : Int))]
    have e1 : (-(n : Int) + (L : Int)).toNat = L - n := by omega
    have e2 : n + 1 - L = 0 := by omega
    apply String.ext
    simp only [String.data_append, e1, e2, List.replicate_zero, List.nil_append]
    have hdl : (Nat.repr m.natAbs).data.length = L := rfl
    rw [hdl]

/-- The renderer `_fmt` refines the spec-side fixed-decimal rendering: for the 2-
    and 4-decimal cases used by the serializer, `_fmt d n` is exactly
    the fixed `n`-decimal string of the half-up-rounded exact value. -/
theorem fmtDec_eq_specFixed (d : Dec) (n : Nat) (h0 : 0 < n) (h6 : n < 6) :
    fmtDec d n = specFixed d.val n := by
  unfold fmtDec specFixed
  rw [quantize_eq_halfUp, pyDecStr_quantized _ _ h0 h6]

/-! ## Helper lemmas: navigating the generated tree -/

theorem digit_filter_ne_dash {c : Char} (h : isAsciiDigit c = true) : c ≠ '-' := by
  intro e
  rw [e] at h
  exact absurd h (by decide)

theorem settlementOf_generate_xml (i : InvoiceData) :
    settlementOf (generate_xml i) = some (build_settlement i) := by
  show (subEl "rsm" "SupplyChainTradeTransaction" [] none
      (i.lines.map (fun l => build_line l i.currency) ++
        [ subEl "ram" "ApplicableHeaderTradeAgreement" [] none
            [build_party "SellerTradeParty" i.seller,
             build_party "BuyerTradeParty" i.buyer]
        , subEl "ram" "ApplicableHeaderTradeDelivery" [] none []
        , build_settlement i ])).children.getLast? = some (build_settlement i)
  show (i.lines.map (fun l => build_line l i.currency) ++
      [ subEl "ram" "ApplicableHeaderTradeAgreement" [] none
          [build_party "SellerTradeParty" i.seller,
           build_party "BuyerTradeParty" i.buyer]
      , subEl "ram" "ApplicableHeaderTradeDelivery" [] none []
      , build_settlement i ]).getLast? = some (build_settlement i)
  rw [List.getLast?_append_of_ne_nil _ (by simp)]
  rfl

theorem build_settlement_children (i : InvoiceData) :
    (build_settlement i).children =
      [subEl "ram" "InvoiceCurrencyCode" [] (some i.currency) []] ++
      (if pyTruthy i.bank_iban then
        [subEl "ram" "SpecifiedTradeSettlementPaymentMeans" [] none
          [ subEl "ram" "TypeCode" [] (some "30") []
          , subEl "ram" "PayeePartyCreditorFinancialAccount" [] none
              [subEl "ram" "IBANID" [] (some (i.bank_iban.getD "")) []] ]]
       else []) ++
      build_vat_breakdown i ++ [build_totals i] := rfl

/-! ## Helper lemmas: distinguishing message strings

    The dry-run engine reports rule violations as strings; to show that
    a given message can only come from its own rule, the interpolated
    message families are separated by their first or last character. -/

theorem lastChar_append_right (x suf : String) (h : suf.data ≠ []) :
    (x ++ suf).data.getLast? = suf.data.getLast? := by
  rw [String.data_append]
  exact List.getLast?_append_of_ne_nil _ h

theorem ne_append_right {a suf : String} (hne : a.data.getLast? ≠ suf.data.getLast?)
    (h : suf.data ≠ []) (x : String) : a ≠ x ++ suf := by
  intro e
  exact hne (by rw [e, lastChar_append_right _ _ h])

theorem headChar_append_left (pre x : String) (hp : pre.data ≠ []) :
    (pre ++ x).data.head? = pre.data.head? := by
  rw [String.data_append]
  cases hd : pre.data with
  | nil => exact absurd hd hp
  | cons y ys => simp

theorem ne_append_left {a pre : String} (hne : a.data.head? ≠ pre.data.head?)
    (hp : pre.data ≠ []) (x : String) : a ≠ pre ++ x := by
  intro e
  exact hne (by rw [e, headChar_append_left _ _ hp])

/-! ## Helper lemmas: membership in the dry-run error/warning lists -/

theorem mem_dry_run_errors {a : String} {i : InvoiceData} :
    a ∈ dry_run_errors i ↔
      a ∈ siret_errors i ∨ a ∈ tva_errors i ∨ a ∈ iban_errors i ∨ a ∈ date_errors i ∨
        a ∈ devise_errors i ∨ a ∈ postal_errors i ∨ a ∈ line_errors i := by
  simp [dry_run_errors, List.mem_append, or_assoc]

theorem mem_dry_run_warnings {a : String} {i : InvoiceData} :
    a ∈ dry_run_warnings i ↔
      a ∈ iban_warnings i ∨ a ∈ due_warnings i ∨ a ∈ payment_warnings i ∨
        a ∈ pays_warnings i ∨ a ∈ line_warnings i := by
  simp [dry_run_warnings, List.mem_append, or_assoc]

theorem not_mem_siret_errors {a : String} (i : InvoiceData)
    (h1 : a ≠ "SIRET vendeur invalide : doit contenir exactement 14 chiffres")
    (h2 : a ≠ "SIRET acheteur invalide : doit contenir exactement 14 chiffres") :
    a ∉ siret_errors i := by
  intro h
  rcases List.mem_append.1 h with h | h <;> revert h <;> split <;> simp_all

theorem not_mem_tva_errors {a : String} (i : InvoiceData)
    (h1 : a ≠ "Numéro TVA vendeur invalide : format attendu FR + 11 chiffres")
    (h2 : a ≠ "Numéro TVA acheteur invalide : format attendu FR + 11 chiffres") :
    a ∉ tva_errors i := by
  intro h
  rcases List.mem_append.1 h with h | h <;> revert h <;> split <;> simp_all

theorem mem_iban_errors {a : String} {i : InvoiceData} :
    a ∈ iban_errors i ↔
      pyTruthy i.bank_iban = true ∧ valider_iban_fr (i.bank_iban.getD "") = false ∧
        a = msgIbanInvalide := by
  unfold iban_errors
  split
  · split <;> simp_all
  · simp_all

theorem mem_date_errors {a : String} {i : InvoiceData} :
    a ∈ date_errors i ↔
      (valider_date i.issue_date = false ∧ a = msgDateEmission) ∨
      (pyTruthy i.due_date = true ∧ valider_date (i.due_date.getD "") = false ∧
        a = msgDueInvalide) ∨
      (pyTruthy i.due_date = true ∧ valider_date (i.due_date.getD "") = true ∧
        pyStrLt (i.due_date.getD "") i.issue_date = true ∧ a = msgDueAnterieure) := by
  unfold date_errors
  cases hI : valider_date i.issue_date <;> cases hT : pyTruthy i.due_date <;>
    cases hD : valider_date (i.due_date.getD "") <;>
      cases hL : pyStrLt (i.due_date.getD "") i.issue_date <;>
        simp [hI, hT, hD, hL]

theorem not_mem_devise_errors {a : String} (i : InvoiceData)
    (h : ∀ s, a ≠ "Devise invalide : " ++ s ++
      ". Valeurs acceptées : ['EUR', 'USD', 'GBP', 'CHF', 'JPY']") :
    a ∉ devise_errors i := by
  intro hm
  revert hm
  unfold devise_errors
  split
  · simp
  · intro hm
    exact h i.currency (List.mem_singleton.1 hm)

theorem not_mem_postal_errors {a : String} (i : InvoiceData)
    (h1 : a ≠ "Code postal vendeur invalide : doit contenir 5 chiffres")
    (h2 : a ≠ "Code postal acheteur invalide : doit contenir 5 chiffres") :
    a ∉ postal_errors i := by
  intro h
  rcases List.mem_append.1 h with h | h <;> revert h <;> split <;> simp_all

theorem not_mem_line_errors {a : String} (i : InvoiceData)
    (h1 : ∀ s, a ≠ "Ligne " ++ s ++ " : quantité doit être > 0")
    (h2 : ∀ s, a ≠ "Ligne " ++ s ++ " : prix unitaire ne peut pas être négatif") :
    a ∉ line_errors i := by
  intro hm
  rcases List.mem_flatMap.1 hm with ⟨l, _, hl⟩
  rcases List.mem_append.1 hl with h | h
  · revert h
    split
    · intro h
      exact h1 l.id (List.mem_singleton.1 h)
    · intro h
      cases h
  · revert h
    split
    · intro h
      exact h2 l.id (List.mem_singleton.1 h)
    · intro h
      cases h

theorem not_mem_line_warnings {a : String} (i : InvoiceData)
    (h1 : ∀ s t, a ≠ "Ligne " ++ s ++ " : taux TVA " ++ t ++ "% inhabituel en France")
    (h2 : ∀ s t, a ≠ "Ligne " ++ s ++ " : unité " ++ t ++ " non standard UN/ECE") :
    a ∉ line_warnings i := by
  intro hm
  rcases List.mem_flatMap.1 hm with ⟨l, _, hl⟩
  rcases List.mem_append.1 hl with h | h
  · revert h
    split
    · intro h
      cases h
    · intro h
      exact h1 l.id (pyDecStr l.vat_rate) (List.mem_singleton.1 h)
  · revert h
    split
    · intro h
      cases h
    · intro h
      exact h2 l.id l.unit (List.mem_singleton.1 h)

theorem not_mem_pays_warnings {a : String} (i : InvoiceData)
    (h1 : ∀ s, a ≠ "Code pays vendeur inhabituel : " ++ s)
    (h2 : ∀ s, a ≠ "Code pays acheteur inhabituel : " ++ s) :
    a ∉ pays_warnings i := by
  intro h
  rcases List.mem_append.1 h with h | h
  · revert h
    split
    · intro h
      cases h
    · intro h
      exact h1 i.seller.address.country (List.mem_singleton.1 h)
  · revert h
    split
    · intro h
      cases h
    · intro h
      exact h2 i.buyer.address.country (List.mem_singleton.1 h)

theorem mem_iban_warnings {a : String} {i : InvoiceData} :
    a ∈ iban_warnings i ↔ pyTruthy i.bank_iban = false ∧ a = msgIbanManquant := by
  unfold iban_warnings
  split <;> simp_all

theorem mem_due_warnings {a : String} {i : InvoiceData} :
    a ∈ due_warnings i ↔ pyTruthy i.due_date = false ∧ a = msgDueManquante := by
  unfold due_warnings
  split <;> simp_all

theorem not_mem_payment_warnings {a : String} (i : InvoiceData)
    (h : a ≠ "Conditions de paiement manquantes - recommandées") :
    a ∉ payment_warnings i := by
  intro hm
  revert hm
  unfold payment_warnings
  split
  · simp
  · intro hm
    exact h (List.mem_singleton.1 hm)

/-- The IBAN-format error appears in the dry-run errors exactly when an
    IBAN is present (truthy) and fails the `FR` + 25 digits check. -/
theorem ibanMsg_mem_errors (i : InvoiceData) :
    msgIbanInvalide ∈ dry_run_errors i ↔
      pyTruthy i.bank_iban = true ∧ valider_iban_fr (i.bank_iban.getD "") = false := by
  rw [mem_dry_run_errors]
  constructor
  · rintro (h | h | h | h | h | h | h)
    · exact absurd h (not_mem_siret_errors i (by decide) (by decide))
    · exact absurd h (not_mem_tva_errors i (by decide) (by decide))
    · exact ⟨(mem_iban_errors.1 h).1, (mem_iban_errors.1 h).2.1⟩
    · rcases mem_date_errors.1 h with ⟨_, h⟩ | ⟨_, _, h⟩ | ⟨_, _, _, h⟩ <;>
        exact absurd h (by decide)
    · exact absurd h
        (not_mem_devise_errors i (fun s => ne_append_right (by decide) (by decide) _))
    · exact absurd h (not_mem_postal_errors i (by decide) (by decide))
    · exact absurd h
        (not_mem_line_errors i (fun s => ne_append_right (by decide) (by decide) _)
          (fun s => ne_append_right (by decide) (by decide) _))
  · intro h
    exact Or.inr (Or.inr (Or.inl (mem_iban_errors.2 ⟨h.1, h.2, rfl⟩)))

/-- The malformed-due-date error appears exactly when a due date is
    present (truthy) and `strptime` rejects it. -/
theorem dueInvalideMsg_mem_errors (i : InvoiceData) :
    msgDueInvalide ∈ dry_run_errors i ↔
      pyTruthy i.due_date = true ∧ valider_date (i.due_date.getD "") = false := by
  rw [mem_dry_run_errors]
  constructor
  · rintro (h | h | h | h | h | h | h)
    · exact absurd h (not_mem_siret_errors i (by decide) (by decide))
    · exact absurd h (not_mem_tva_errors i (by decide) (by decide))
    · exact absurd (mem_iban_errors.1 h).2.2 (by decide)
    · rcases mem_date_errors.1 h with ⟨_, h⟩ | ⟨h1, h2, _⟩ | ⟨_, _, _, h⟩
      · exact absurd h (by decide)
      · exact ⟨h1, h2⟩
      · exact absurd h (by decide)
    · exact absurd h
        (not_mem_devise_errors i (fun s => ne_append_right (by decide) (by decide) _))
    · exact absurd h (not_mem_postal_errors i (by decide) (by decide))
    · exact absurd h
        (not_mem_line_errors i (fun s => ne_append_right (by decide) (by decide) _)
          (fun s => ne_append_right (by decide) (by decide) _))
  · intro h
    exact Or.inr (Or.inr (Or.inr (Or.inl
      (mem_date_errors.2 (Or.inr (Or.inl ⟨h.1, h.2, rfl⟩))))))

/-- The due-date-before-issue-date error appears exactly when a due
    date is present, parses, and is lexicographically smaller (Python
    string `<`) than the issue date. -/
theorem dueAnterieureMsg_mem_errors (i : InvoiceData) :
    msgDueAnterieure ∈ dry_run_errors i ↔
      pyTruthy i.due_date = true ∧ valider_date (i.due_date.getD "") = true ∧
        pyStrLt (i.due_date.getD "") i.issue_date = true := by
  rw [mem_dry_run_errors]
  constructor
  · rintro (h | h | h | h | h | h | h)
    · exact absurd h (not_mem_siret_errors i (by decide) (by decide))
    · exact absurd h (not_mem_tva_errors i (by decide) (by decide))
    · exact absurd (mem_iban_errors.1 h).2.2 (by decide)
    · rcases mem_date_errors.1 h with ⟨_, h⟩ | ⟨_, _, h⟩ | ⟨h1, h2, h3, _⟩
      · exact absurd h (by decide)
      · exact absurd h (by decide)
      · exact ⟨h1, h2, h3⟩
    · exact absurd h
        (not_mem_devise_errors i (fun s => ne_append_right (by decide) (by decide) _))
    · exact absurd h (not_mem_postal_errors i (by decide) (by decide))
    · exact absurd h
        (not_mem_line_errors i (fun s => ne_append_right (by decide) (by decide) _)
          (fun s => ne_append_right (by decide) (by decide) _))
  · intro h
    exact Or.inr (Or.inr (Or.inr (Or.inl
      (mem_date_errors.2 (Or.inr (Or.inr ⟨h.1, h.2.1, h.2.2, rfl⟩))))))

/-- The missing-IBAN warning appears exactly when no (truthy) IBAN is
    present. -/
theorem ibanManquantMsg_mem_warnings (i : InvoiceData) :
    msgIbanManquant ∈ dry_run_warnings i ↔ pyTruthy i.bank_iban = false := by
  rw [mem_dry_run_warnings]
  constructor
  · rintro (h | h | h | h | h)
    · exact (mem_iban_warnings.1 h).1
    · exact absurd (mem_due_warnings.1 h).2 (by decide)
    · exact absurd h (not_mem_payment_warnings i (by decide))
    · exact absurd h
        (not_mem_pays_warnings i (fun s => ne_append_left (by decide) (by decide) _)
          (fun s => ne_append_left (by decide) (by decide) _))
    · exact absurd h
        (not_mem_line_warnings i (fun s t => ne_append_right (by decide) (by decide) _)
          (fun s t => ne_append_right (by decide) (by decide) _))
  · intro h
    exact Or.inl (mem_iban_warnings.2 ⟨h, rfl⟩)

/-- The missing-due-date warning appears exactly when no (truthy) due
    date is present. -/
theorem dueManquanteMsg_mem_warnings (i : InvoiceData) :
    msgDueManquante ∈ dry_run_warnings i ↔ pyTruthy i.due_date = false := by
  rw [mem_dry_run_warnings]
  constructor
  · rintro (h | h | h | h | h)
    · exact absurd (mem_iban_warnings.1 h).2 (by decide)
    · exact (mem_due_warnings.1 h).1
    · exact absurd h (not_mem_payment_warnings i (by decide))
    · exact absurd h
        (not_mem_pays_warnings i (fun s => ne_append_left (by decide) (by decide) _)
          (fun s => ne_append_left (by decide) (by decide) _))
    · exact absurd h
        (not_mem_line_warnings i (fun s t => ne_append_right (by decide) (by decide) _)
          (fun s t => ne_append_right (by decide) (by decide) _))
  · intro h
    exact Or.inr (Or.inl (mem_due_warnings.2 ⟨h, rfl⟩))

theorem flatMap_nil_of {α β : Type} (l : List α) (f : α → List β)
    (h : ∀ x ∈ l, f x = []) : l.flatMap f = [] := by
  induction l with
  | nil => rfl
  | cons a as ih =>
    rw [List.flatMap_cons, h a (List.mem_cons_self a as), List.nil_append]
    exact ih (fun x hx => h x (List.mem_cons_of_mem a hx))

/-- When every other rule passes and no due date is present, the
    dry-run errors list is empty. -/
theorem dry_run_errors_nil (i : InvoiceData)
    (h1 : valider_siret i.seller.siret = true)
    (h2 : valider_siret i.buyer.siret = true)
    (h3 : valider_tva_fr i.seller.vat_number = true)
    (h4 : valider_tva_fr i.buyer.vat_number = true)
    (h5 : pyTruthy i.bank_iban = false ∨ valider_iban_fr (i.bank_iban.getD "") = true)
    (h6 : valider_date i.issue_date = true)
    (h7 : pyTruthy i.due_date = false)
    (h8 : DEVISES_VALIDES.contains i.currency = true)
    (h9 : (i.seller.address.country == "FR" &&
            !valider_postal i.seller.address.postal_code) = false)
    (h10 : (i.buyer.address.country == "FR" &&
            !valider_postal i.buyer.address.postal_code) = false)
    (h11 : ∀ l ∈ i.lines, l.quantity.dle ⟨0, 0⟩ = false ∧ l.unit_price.dlt ⟨0, 0⟩ = false) :
    dry_run_errors i = [] := by
  unfold dry_run_errors
  rw [show siret_errors i = [] by unfold siret_errors; simp [h1, h2]]
  rw [show tva_errors i = [] by unfold tva_errors; simp [h3, h4]]
  rw [show iban_errors i = [] by
    unfold iban_errors
    rcases h5 with h5 | h5 <;> simp [h5]]
  rw [show date_errors i = [] by unfold date_errors; simp [h6, h7]]
  rw [show devise_errors i = [] by unfold devise_errors; rw [if_pos h8]]
  rw [show postal_errors i = [] by unfold postal_errors; simp [h9, h10]]
  rw [show line_errors i = [] by
    unfold line_errors
    exact flatMap_nil_of _ _ (fun l hl => by simp [(h11 l hl).1, (h11 l hl).2])]
  rfl

theorem foldl_groups_vat_sum (lines : List InvoiceLine) (acc : List VatGroup) :
    ((lines.foldl addLineToGroups acc).map (fun g => g.vat.val)).sum =
      (acc.map (fun g => g.vat.val)).sum + (lines.map (fun l => l.vat_amount.val)).sum := by
  induction lines generalizing acc with
  | nil => simp
  | cons x xs ih =>
    rw [List.foldl_cons, ih, addLineToGroups_vat_sum, List.map_cons, List.sum_cons]
    ring
example : valider_date "2024-6-1" = true := by decide
example : valider_date "2024-02-30" = false := by decide
example : valider_date "2024-13-01" = false := by decide
example : valider_date "0000-01-01" = false := by decide
example : valider_date "2024-02-29" = true := by decide
example : valider_date "2023-02-29" = false := by decide
example : valider_date "2024-06-011" = false := by decide
example : valider_iban_fr "FR7630006000011234567890189" = true := by decide
example : valider_iban_fr "FR76 3000 6000 0112 3456 7890 189" = true := by decide
example : valider_iban_fr "FRAAAAAAAAAAAAAAAAAAAAAAAAA" = false := by decide
example : valider_siret "12345678900017" = true := by decide
example : valider_siret "123" = false := by decide
example : valider_tva_fr "FR12345678900" = true := by decide
example : valider_tva_fr "FR1234" = false := by decide
example : pyStrLt "2024-6-02" "2024-10-01" = false := by decide
example : pyStrLt "2024-05-01" "2024-06-01" = true := by decide
example : pyDecStr ⟨20, 0⟩ = "20" := by decide
example : pyDecStr ⟨200, -1⟩ = "20.0" := by decide
example : pyDecStr ⟨21, -1⟩ = "2.1" := by decide
example : pyDecStr ⟨0, -4⟩ = "0.0000" := by decide
example : pyDecStr ⟨2, 3⟩ = "2E+3" := by decide
example : pyDecStr ⟨1, -7⟩ = "1E-7" := by decide
example : pyDecStr ⟨-15, -1⟩ = "-1.5" := by decide
example : fmtDec ⟨20, 0⟩ 2 = "20.00" := by decide
example : fmtDec ⟨21, -1⟩ 2 = "2.10" := by decide
example : fmtDec ⟨1, 0⟩ 4 = "1.0000" := by decide
example : fmtDec ⟨12345, -3⟩ 2 = "12.35" := by decide
example : fmtDec ⟨-5, -3⟩ 2 = "-0.01" := by decide
example : fmtDec ⟨25, -1⟩ 0 = "3" := by decide
example : Dec.deq ⟨200, -1⟩ ⟨20, 0⟩ = true := by decide
example : Dec.deq ⟨21, -1⟩ ⟨4728779608739021 * 5 ^ 51, -51⟩ = false := by decide
example : specRender 1235 2 = "12.35" := by decide
example : specRender (-7) 2 = "-0.07" := by decide

/-! ## Claim theorems -/

/-- C1 counterexample: the claim says two lines whose `vat_rate` is the
    same VAT rate value fall into exactly one breakdown block, but the
    grouping key is `str(line.vat_rate)`: the invoice whose two lines
    carry Decimal "20" and Decimal "20.0" — numerically the same rate —
    produces two `ram:ApplicableTradeTax` blocks in the header
    settlement, not one. -/
theorem C1_counterexample :
    Dec.val ⟨200, -1⟩ = Dec.val ⟨20, 0⟩ ∧
    invoiceTwoTwenties.lines.map (fun l => l.vat_rate) = [⟨20, 0⟩, ⟨200, -1⟩] ∧
    vatBlockCount (generate_xml invoiceTwoTwenties) = 2 := by
  refine ⟨?_, by decide, by decide⟩
  show (200 : ℚ) * (10 : ℚ) ^ (-1 : Int) = (20 : ℚ) * (10 : ℚ) ^ (0 : Int)
  norm_num

/-- C1 (amended): lines are grouped by the string representation
    `str(vat_rate)` of their Decimal rate — so two lines fall into the
    same block exactly when their rates have identical coefficient and
    exponent, while numerically equal rates with different exponents
    (20 vs 20.0) form separate blocks — and the blocks are emitted in
    first-seen order of the distinct string keys, one block per key,
    not sorted numerically. -/
theorem C1_amended (i : InvoiceData) :
    (vat_groups i.lines).map VatGroup.rateKey =
      i.lines.foldl
        (fun ks l => if pyDecStr l.vat_rate ∈ ks then ks else ks ++ [pyDecStr l.vat_rate])
        [] ∧
    vatBlockCount (generate_xml i) = (vat_groups i.lines).length := by
  constructor
  · have h := foldl_groups_keys i.lines []
    simpa [vat_groups] using h
  · unfold vatBlockCount
    rw [settlementOf_generate_xml]
    dsimp only
    rw [build_settlement_children]
    simp only [List.filter_append]
    rw [show (List.filter (fun c => c.tag == "ApplicableTradeTax")
        [subEl "ram" "InvoiceCurrencyCode" [] (some i.currency) []]) = [] from rfl]
    rw [show (List.filter (fun c => c.tag == "ApplicableTradeTax") [build_totals i]) = []
      from rfl]
    have hpm : (List.filter (fun c => c.tag == "ApplicableTradeTax")
        (if pyTruthy i.bank_iban then
          [subEl "ram" "SpecifiedTradeSettlementPaymentMeans" [] none
            [ subEl "ram" "TypeCode" [] (some "30") []
            , subEl "ram" "PayeePartyCreditorFinancialAccount" [] none
                [subEl "ram" "IBANID" [] (some (i.bank_iban.getD "")) []] ]]
         else [])) = [] := by
      split <;> rfl
    rw [hpm]
    have hbr : List.filter (fun c => c.tag == "ApplicableTradeTax") (build_vat_breakdown i) =
        build_vat_breakdown i := by
      apply List.filter_eq_self.2
      intro x hx
      unfold build_vat_breakdown at hx
      rcases List.mem_map.1 hx with ⟨g, _, rfl⟩
      rfl
    rw [hbr]
    unfold build_vat_breakdown
    simp

/-- C2: the VAT breakdown partitions the lines: the sum of the groups'
    basis amounts equals `total_ht` and the sum of the groups' tax
    amounts equals `total_vat`, in exact arithmetic on the values,
    before any formatting. -/
theorem C2_breakdown_sums (i : InvoiceData) :
    ((vat_groups i.lines).map (fun g => g.base.val)).sum = i.total_ht.val ∧
    ((vat_groups i.lines).map (fun g => g.vat.val)).sum = i.total_vat.val := by
  constructor
  · rw [total_ht_val]
    have h := foldl_groups_base_sum i.lines []
    simpa [vat_groups] using h
  · rw [total_vat_val]
    have h := foldl_groups_vat_sum i.lines []
    simpa [vat_groups] using h

/-- C3: serializing a credit note emits header document TypeCode "381",
    and serializing an invoice emits "380", so the two document kinds
    carry distinct type codes.  (`generate_credit_note_xml` is absent
    from the provided sources and is modelled from the spec.) -/
theorem C3_type_codes (cn : CreditNoteData) (i : InvoiceData) :
    docTypeCodeElem (generate_credit_note_xml cn) = some ("TypeCode", some "381") ∧
    docTypeCodeElem (generate_xml i) = some ("TypeCode", some "380") :=
  ⟨rfl, rfl⟩

/-- C4: the claim (and the spec's domestic rate set, and the code's own
    `TAUX_TVA_VALIDES = [0, 2.1, 5.5, 8.5, 10, 20]`) treats 2.1 as a
    valid rate, but the Python list stores the binary float `2.1`,
    which is not numerically equal to `Decimal("2.1")`: a line with
    `vat_rate = 2.1` gets the "taux TVA inhabituel" warning although
    2.1 belongs to the domestic set (the code contradicts its own
    constant). -/
theorem C4_float_rate_bug :
    Dec.val ⟨21, -1⟩ = 21/10 ∧
    (21/10 : ℚ) ∈ [(0 : ℚ), 21/10, 55/10, 85/10, 10, 20] ∧
    decMem ⟨21, -1⟩ TAUX_TVA_VALIDES = false ∧
    "Ligne 1 : taux TVA 2.1% inhabituel en France" ∈
      (dry_run_invoice invoiceRate21).warnings ∧
    (dry_run_invoice invoiceRate21).errors = [] := by
  refine ⟨?_, by norm_num, by decide, by decide, by decide⟩
  show (21 : ℚ) * (10 : ℚ) ^ (-1 : Int) = 21/10
  norm_num

/-- C5 counterexample: the claim says a present IBAN is an error iff,
    after removing spaces, it is not "FR" followed by exactly 25
    characters; but the code requires 25 *digits*: "FR" followed by 25
    letters (27 characters, "FR" prefix intact) still produces the IBAN
    error. -/
theorem C5_counterexample :
    invoiceIbanLetters.bank_iban = some "FRAAAAAAAAAAAAAAAAAAAAAAAAA" ∧
    (stripSpaces "FRAAAAAAAAAAAAAAAAAAAAAAAAA").length = 27 ∧
    (stripSpaces "FRAAAAAAAAAAAAAAAAAAAAAAAAA").data.take 2 = ['F', 'R'] ∧
    msgIbanInvalide ∈ (dry_run_invoice invoiceIbanLetters).errors := by
  exact ⟨rfl, by decide, by decide, by decide⟩

/-- C5 (amended): with a (truthy) IBAN present, dry_run reports the
    IBAN error iff the value, after removing spaces, is not "FR"
    followed by exactly 25 decimal digits (`_valider_iban_fr`); with no
    IBAN, dry_run emits the missing-IBAN warning and no IBAN error. -/
theorem C5_amended (i : InvoiceData) :
    (msgIbanInvalide ∈ (dry_run_invoice i).errors ↔
      pyTruthy i.bank_iban = true ∧ valider_iban_fr (i.bank_iban.getD "") = false) ∧
    (pyTruthy i.bank_iban = false →
      msgIbanManquant ∈ (dry_run_invoice i).warnings ∧
      msgIbanInvalide ∉ (dry_run_invoice i).errors) := by
  refine ⟨ibanMsg_mem_errors i, fun h => ⟨(ibanManquantMsg_mem_warnings i).2 h, ?_⟩⟩
  intro hm
  rcases (ibanMsg_mem_errors i).1 hm with ⟨h1, _⟩
  rw [h] at h1
  cases h1

/-- C5 amended witness: the IBAN-free invoice gets the warning and no
    IBAN error. -/
theorem C5_amended_witness :
    msgIbanManquant ∈ (dry_run_invoice invoiceNoIban).warnings ∧
    msgIbanInvalide ∉ (dry_run_invoice invoiceNoIban).errors :=
  (C5_amended invoiceNoIban).2 (by decide)

/-- C6: the serializer is a pure function of the invoice value — two
    invocations on identical input values produce identical trees
    (`etree.tostring` with fixed arguments then yields byte-identical
    output; the builder reads no clock and no other ambient state, and
    all orderings are insertion orderings). -/
theorem C6_deterministic (i₁ i₂ : InvoiceData) (h : i₁ = i₂) :
    generate_xml i₁ = generate_xml i₂ := by rw [h]

/-- C6 witness. -/
theorem C6_deterministic_witness :
    generate_xml invoiceOk = generate_xml invoiceOk :=
  C6_deterministic invoiceOk invoiceOk rfl

/-- C7: `valid` is exactly "errors list empty" (warnings play no
    role), and the response always carries the computed totals —
    `total_ht` the sum of line totals, `total_vat` the sum of VAT
    amounts, `total_ttc` their sum — whether or not errors are
    present: the rule engine collects all violations in one pass. -/
theorem C7_valid_and_totals (i : InvoiceData) :
    ((dry_run_invoice i).valid = true ↔ (dry_run_invoice i).errors = []) ∧
    (dry_run_invoice i).total_ht.val = (i.lines.map (fun l => l.line_total.val)).sum ∧
    (dry_run_invoice i).total_vat.val = (i.lines.map (fun l => l.vat_amount.val)).sum ∧
    (dry_run_invoice i).total_ttc.val =
      (dry_run_invoice i).total_ht.val + (dry_run_invoice i).total_vat.val := by
  refine ⟨?_, total_ht_val i, total_vat_val i, Dec.val_add _ _⟩
  show (dry_run_errors i == [] : Bool) = true ↔ dry_run_errors i = []
  simp

/-- C7 witness: an invoice with a failing rule still carries its
    computed totals and `valid = (errors = [])`. -/
theorem C7_valid_and_totals_witness :
    (((dry_run_invoice invoiceIbanLetters).valid = true ↔
       (dry_run_invoice invoiceIbanLetters).errors = []) ∧
     (dry_run_invoice invoiceIbanLetters).total_ht.val =
       (invoiceIbanLetters.lines.map (fun l => l.line_total.val)).sum ∧
     (dry_run_invoice invoiceIbanLetters).total_vat.val =
       (invoiceIbanLetters.lines.map (fun l => l.vat_amount.val)).sum ∧
     (dry_run_invoice invoiceIbanLetters).total_ttc.val =
       (dry_run_invoice invoiceIbanLetters).total_ht.val +
         (dry_run_invoice invoiceIbanLetters).total_vat.val) ∧
    (dry_run_invoice invoiceIbanLetters).errors ≠ [] :=
  ⟨C7_valid_and_totals invoiceIbanLetters, by decide⟩

/-- C8 counterexample: the due date "2024-6-02" parses under the code's
    own date parser (`strptime` accepts a non-zero-padded month) and is
    chronologically earlier than the issue date "2024-10-01", yet the
    dry run emits no error at all: the earlier-than check compares the
    raw strings, and "2024-6-02" > "2024-10-01" lexicographically. -/
theorem C8_counterexample :
    invoiceDueEarlier.due_date = some "2024-6-02" ∧
    invoiceDueEarlier.issue_date = "2024-10-01" ∧
    valider_date "2024-6-02" = true ∧
    ymdOf "2024-6-02" = some (2024, 6, 2) ∧
    ymdOf "2024-10-01" = some (2024, 10, 1) ∧
    ymdEarlier (2024, 6, 2) (2024, 10, 1) = true ∧
    (dry_run_invoice invoiceDueEarlier).errors = [] := by
  exact ⟨rfl, rfl, by decide, by decide, by decide, by decide, by decide⟩

/-- C8 (amended): a present due date that `strptime` rejects is an
    error; a present, parseable due date is flagged "antérieure"
    exactly when it is lexicographically smaller than the raw issue
    date string (which coincides with chronological order only for
    zero-padded dates); an absent due date yields the warning, no
    due-date error, and — when every other rule passes — an empty
    errors list. -/
theorem C8_amended (i : InvoiceData) :
    (pyTruthy i.due_date = true → valider_date (i.due_date.getD "") = false →
      msgDueInvalide ∈ (dry_run_invoice i).errors) ∧
    (pyTruthy i.due_date = true → valider_date (i.due_date.getD "") = true →
      (msgDueAnterieure ∈ (dry_run_invoice i).errors ↔
        pyStrLt (i.due_date.getD "") i.issue_date = true)) ∧
    (pyTruthy i.due_date = false →
      msgDueManquante ∈ (dry_run_invoice i).warnings ∧
      msgDueInvalide ∉ (dry_run_invoice i).errors ∧
      msgDueAnterieure ∉ (dry_run_invoice i).errors) ∧
    (pyTruthy i.due_date = false →
      valider_siret i.seller.siret = true →
      valider_siret i.buyer.siret = true →
      valider_tva_fr i.seller.vat_number = true →
      valider_tva_fr i.buyer.vat_number = true →
      (pyTruthy i.bank_iban = false ∨ valider_iban_fr (i.bank_iban.getD "") = true) →
      valider_date i.issue_date = true →
      DEVISES_VALIDES.contains i.currency = true →
      (i.seller.address.country == "FR" &&
        !valider_postal i.seller.address.postal_code) = false →
      (i.buyer.address.country == "FR" &&
        !valider_postal i.buyer.address.postal_code) = false →
      (∀ l ∈ i.lines, l.quantity.dle ⟨0, 0⟩ = false ∧ l.unit_price.dlt ⟨0, 0⟩ = false) →
      (dry_run_invoice i).errors = []) := by
  refine ⟨?_, ?_, ?_, ?_⟩
  · intro h1 h2
    exact (dueInvalideMsg_mem_errors i).2 ⟨h1, h2⟩
  · intro h1 h2
    constructor
    · intro hm
      exact ((dueAnterieureMsg_mem_errors i).1 hm).2.2
    · intro hl
      exact (dueAnterieureMsg_mem_errors i).2 ⟨h1, h2, hl⟩
  · intro h
    refine ⟨(dueManquanteMsg_mem_warnings i).2 h, ?_, ?_⟩
    · intro hm
      have := ((dueInvalideMsg_mem_errors i).1 hm).1
      rw [h] at this
      cases this
    · intro hm
      have := ((dueAnterieureMsg_mem_errors i).1 hm).1
      rw [h] at this
      cases this
  · intro h7 h1 h2 h3 h4 h5 h6 h8 h9 h10 h11
    exact dry_run_errors_nil i h1 h2 h3 h4 h5 h6 h7 h8 h9 h10 h11

/-- C8 amended witness: a malformed due date is an error; with the due
    date absent and everything else valid, the errors list is empty
    and the missing-due-date warning appears. -/
theorem C8_amended_witness :
    msgDueInvalide ∈ (dry_run_invoice invoiceBadDue).errors ∧
    msgDueManquante ∈ (dry_run_invoice invoiceNoDue).warnings ∧
    (dry_run_invoice invoiceNoDue).errors = [] :=
  ⟨(C8_amended invoiceBadDue).1 (by decide) (by decide),
   ((C8_amended invoiceNoDue).2.2.1 (by decide)).1,
   (C8_amended invoiceNoDue).2.2.2 (by decide) (by decide) (by decide) (by decide)
     (by decide) (Or.inr (by decide)) (by decide) (by decide) (by decide) (by decide)
     (by decide)⟩

/-- C9: every monetary and basis amount is `_fmt`-rendered, and `_fmt`
    at 2 decimals is exactly the fixed 2-decimal string of the half-up
    rounded exact value (` specFixed`), quantities use the same
    rendering at 4 decimals, and `_add_date` emits a DateTimeString
    with the fixed format discriminator "102" whose text is the date
    with hyphens removed — 8 digits for a well-formed YYYY-MM-DD
    date. -/
theorem C9_formatting :
    (∀ d : Dec, fmtDec d 2 = specFixed d.val 2) ∧
    (∀ d : Dec, fmtDec d 4 = specFixed d.val 4) ∧
    (∀ tag s, add_date tag s =
      subEl "ram" tag [] none
        [subEl "udt" "DateTimeString" [("format", "102")] (some (stripDashes s)) []]) ∧
    (∀ c1 c2 c3 c4 c5 c6 c7 c8 : Char,
      isAsciiDigit c1 = true → isAsciiDigit c2 = true → isAsciiDigit c3 = true →
      isAsciiDigit c4 = true → isAsciiDigit c5 = true → isAsciiDigit c6 = true →
      isAsciiDigit c7 = true → isAsciiDigit c8 = true →
      stripDashes (String.mk [c1, c2, c3, c4, '-', c5, c6, '-', c7, c8]) =
        String.mk [c1, c2, c3, c4, c5, c6, c7, c8]) := by
  refine ⟨fun d => fmtDec_eq_specFixed d 2 (by norm_num) (by norm_num),
    fun d => fmtDec_eq_specFixed d 4 (by norm_num) (by norm_num),
    fun tag s => rfl, ?_⟩
  intro c1 c2 c3 c4 c5 c6 c7 c8 h1 h2 h3 h4 h5 h6 h7 h8
  have n1 := digit_filter_ne_dash h1
  have n2 := digit_filter_ne_dash h2
  have n3 := digit_filter_ne_dash h3
  have n4 := digit_filter_ne_dash h4
  have n5 := digit_filter_ne_dash h5
  have n6 := digit_filter_ne_dash h6
  have n7 := digit_filter_ne_dash h7
  have n8 := digit_filter_ne_dash h8
  unfold stripDashes
  simp [n1, n2, n3, n4, n5, n6, n7, n8]

/-- C9 witness: the refinement and the date rendering evaluated at
    concrete inputs. -/
theorem C9_formatting_witness :
    fmtDec ⟨12345, -3⟩ 2 = specFixed (Dec.val ⟨12345, -3⟩) 2 ∧
    fmtDec ⟨12345, -3⟩ 2 = "12.35" ∧
    stripDashes "2024-06-01" = "20240601" :=
  ⟨C9_formatting.1 ⟨12345, -3⟩, by decide,
   C9_formatting.2.2.2 '2' '0' '2' '4' '0' '6' '0' '1' (by decide) (by decide)
     (by decide) (by decide) (by decide) (by decide) (by decide) (by decide)⟩

/-- C10: an empty-string `bank_iban` is falsy, hence treated as absent:
    dry_run emits the missing-IBAN warning and no IBAN error, and the
    generated settlement block contains no payment-means element. -/
theorem C10_empty_iban_absent (i : InvoiceData) (h : i.bank_iban = some "") :
    msgIbanManquant ∈ (dry_run_invoice i).warnings ∧
    msgIbanInvalide ∉ (dry_run_invoice i).errors ∧
    hasPaymentMeans (generate_xml i) = false := by
  have ht : pyTruthy i.bank_iban = false := by rw [h]; rfl
  refine ⟨(ibanManquantMsg_mem_warnings i).2 ht, ?_, ?_⟩
  · intro hm
    rcases (ibanMsg_mem_errors i).1 hm with ⟨h1, _⟩
    rw [ht] at h1
    cases h1
  · unfold hasPaymentMeans
    rw [settlementOf_generate_xml]
    dsimp only
    rw [build_settlement_children, ht]
    have hite : (if (false = true) then
        [subEl "ram" "SpecifiedTradeSettlementPaymentMeans" [] none
          [ subEl "ram" "TypeCode" [] (some "30") []
          , subEl "ram" "PayeePartyCreditorFinancialAccount" [] none
              [subEl "ram" "IBANID" [] (some (i.bank_iban.getD "")) []] ]]
       else ([] : List Xml)) = [] := by simp
    rw [hite]
    simp only [List.append_nil, List.nil_append, List.any_append, List.any_cons,
      List.any_nil, Bool.or_false, Bool.false_or]
    rw [show ((subEl "ram" "InvoiceCurrencyCode" [] (some i.currency) []).tag ==
      "SpecifiedTradeSettlementPaymentMeans") = false from rfl]
    rw [show ((build_totals i).tag == "SpecifiedTradeSettlementPaymentMeans") = false
      from rfl]
    simp only [Bool.false_or, Bool.or_false]
    unfold build_vat_breakdown
    simp only [List.any_eq_false]
    intro x hx
    rcases List.mem_map.1 hx with ⟨g, _, rfl⟩
    simp [subEl, Xml.tag]

/-- C10 witness. -/
theorem C10_empty_iban_absent_witness :
    msgIbanManquant ∈ (dry_run_invoice invoiceEmptyIban).warnings ∧
    msgIbanInvalide ∉ (dry_run_invoice invoiceEmptyIban).errors ∧
    hasPaymentMeans (generate_xml invoiceEmptyIban) = false :=
  C10_empty_iban_absent invoiceEmptyIban rfl
